import Mathlib

/-!
Shallow embedding of the ai-code-review-bot repository.

The repository has two entry points:
  - app.py: a Flask service exposing /analyze and /fix over one code snippet;
  - .github/scripts/review_pr.py: a batch script that lints every python
    file, applies auto-fixes and opens a pull request.

External tools (pylint, flake8, isort, autopep8, the model API, git) are
modelled as oracle parameters describing the outcome of the single
invocation the code performs; the glue logic around them (string parsing
of tool output, branch structure, error handling) is translated directly
from the source.

Python string methods (strip, lower, split, startswith, join, `in`) are
given executable models over the character list of a String, structurally
recursive so that concrete runs evaluate inside the kernel.
-/

namespace Py

/-- Python default whitespace for str.strip. -/
def isSpace (c : Char) : Bool :=
  c = ' ' ∨ c = '\t' ∨ c = '\n' ∨ c = '\r' ∨ c = '\x0b' ∨ c = '\x0c'

/-- Python str.strip() with no argument: remove leading and trailing
whitespace. -/
def strip (s : String) : String :=
  ⟨((s.data.dropWhile isSpace).reverse.dropWhile isSpace).reverse⟩

/-- Python truthiness of a string: non-empty. -/
def isBlank (s : String) : Bool :=
  s.data.isEmpty

/-- Python str.lower restricted to ASCII, which covers every string the
source manipulates. -/
def lower (s : String) : String :=
  ⟨s.data.map Char.toLower⟩

/-- Python str.upper restricted to ASCII. -/
def upper (s : String) : String :=
  ⟨s.data.map Char.toUpper⟩

/-- Python str.startswith. -/
def startsWith (s pre : String) : Bool :=
  List.isPrefixOf pre.data s.data

/-- Python substring membership `sub in s` on character lists. -/
def containsAux (needle : List Char) : List Char → Bool
  | [] => needle.isEmpty
  | c :: rest => List.isPrefixOf needle (c :: rest) || containsAux needle rest

/-- Python substring membership `sub in s`. -/
def contains (s sub : String) : Bool :=
  containsAux sub.data s.data

/-- Python str.split(sep) for a non-empty separator, with explicit fuel to
make the recursion structural; fuel larger than the input length is never
exhausted. -/
def splitAux (sep : List Char) : Nat → List Char → List Char → List (List Char)
  | _, [], acc => [acc.reverse]
  | 0, s, acc => [acc.reverse ++ s]
  | fuel + 1, c :: rest, acc =>
    if List.isPrefixOf sep (c :: rest) then
      acc.reverse :: splitAux sep fuel (List.drop (sep.length - 1) rest) []
    else splitAux sep fuel rest (c :: acc)

/-- Python str.split(sep) for a non-empty separator. -/
def split (sep : String) (s : String) : List String :=
  (splitAux sep.data (s.data.length + 1) s.data []).map (fun cs => ⟨cs⟩)

/-- Python sep.join(parts). -/
def join (sep : String) : List String → String
  | [] => ""
  | [x] => x
  | x :: xs => x ++ sep ++ join sep xs

/-- Python slicing s[n:]. -/
def dropChars (n : Nat) (s : String) : String :=
  ⟨s.data.drop n⟩

end Py

namespace AICodeReview

/-- One issue record as built by app.py: a dict with keys type, severity
and message. -/
structure Finding where
  type : String
  severity : String
  message : String
deriving DecidableEq, Repr

/-- Convenience constructor for a Finding in field order type, severity,
message. -/
def mkFinding (type severity message : String) : Finding :=
  { type := type, severity := severity, message := message }

/-- app.py detect_language_from_code: heuristic substring matching on the
lower-cased, stripped snippet, in the order python, c/cpp, javascript,
java, else unknown. -/
def detect_language_from_code (code : String) : String :=
  let codeLower := Py.strip (Py.lower code)
  let pythonIndicators := ["def ", "import ", "from ", "class ", "if __name__ ==", "print("]
  let cIndicators := ["#include", "int main(", "printf(", "scanf(", "std::", "cout<<", "cin>>"]
  let jsIndicators := ["function ", "const ", "let ", "var ", "console.log(", "document.", "=>"]
  let javaIndicators := ["public class", "public static void main", "system.out.println", "import java."]
  if pythonIndicators.any (fun ind => Py.contains codeLower ind) then "python"
  else if cIndicators.any (fun ind => Py.contains codeLower ind) then
    (if Py.contains codeLower ".h" || Py.contains codeLower "malloc(" then "c" else "cpp")
  else if jsIndicators.any (fun ind => Py.contains codeLower ind) then "javascript"
  else if javaIndicators.any (fun ind => Py.contains codeLower ind) then "java"
  else "unknown"

/-- app.py analyze_code_with_linters, pylint branch: one line of the text
reporter output becomes a finding when the line is non-blank, does not
start with a star or a dash, contains a colon, splits into at least three
colon-separated parts and the part after the second colon is non-blank. -/
def parsePylintLine (line : String) : Option Finding :=
  if Py.isBlank (Py.strip line) then none
  else if Py.startsWith line "*" then none
  else if Py.startsWith line "-" then none
  else if ¬ Py.contains line ":" then none
  else
    let parts := Py.split ":" line
    if 3 ≤ parts.length then
      let message := Py.strip (Py.join ":" (parts.drop 2))
      if Py.isBlank message then none
      else some (mkFinding "pylint" "warning" message)
    else none

/-- app.py: the pylint text output is stripped, split into lines and each
line parsed; an all-blank output yields no findings. -/
def parsePylintOutput (output : String) : List Finding :=
  if Py.isBlank (Py.strip output) then []
  else (Py.split "\n" (Py.strip output)).filterMap parsePylintLine

/-- app.py, flake8 branch: a stdout line becomes a finding when it is
non-blank, contains a colon, splits into at least four parts and the part
after the third colon is non-blank. -/
def parseFlake8Line (line : String) : Option Finding :=
  if Py.isBlank (Py.strip line) then none
  else if ¬ Py.contains line ":" then none
  else
    let parts := Py.split ":" line
    if 4 ≤ parts.length then
      let message := Py.strip (Py.join ":" (parts.drop 3))
      if Py.isBlank message then none
      else some (mkFinding "flake8" "warning" message)
    else none

/-- app.py: the flake8 stdout is stripped, split into lines and each line
parsed. -/
def parseFlake8Output (output : String) : List Finding :=
  if Py.isBlank (Py.strip output) then []
  else (Py.split "\n" (Py.strip output)).filterMap parseFlake8Line

/-- Outcome of the flake8 subprocess call in app.py: normal completion
with some stdout, a timeout (the one exception type the code catches
there), or any other exception, which the code does not catch. -/
inductive Flake8Run where
  | ok (stdout : String)
  | timeout
  | crash (msg : String)
deriving DecidableEq, Repr

/-- The finding app.py appends when the flake8 subprocess times out. -/
def flake8TimeoutFinding : Finding :=
  mkFinding "flake8" "error" "Flake8 analysis timed out"

/-- app.py analyze_code_with_linters. The pylint library call is modelled
by an Except oracle (its exceptions are not caught and propagate), the
flake8 subprocess by a Flake8Run oracle (only TimeoutExpired is caught).
A propagated exception is the Except.error result. -/
def analyze_code_with_linters (pylintRun : Except String String) (flake8Run : Flake8Run)
    (code : String) (language : String) : Except String (List Finding) :=
  let detected := detect_language_from_code code
  if detected ≠ "unknown" ∧ detected ≠ language then
    .ok [mkFinding "language_mismatch" "error"
      ("Code appears to be " ++ Py.upper detected ++ " but language is set to " ++
        Py.upper language ++ ". Please select the correct language.")]
  else if language = "python" then
    match pylintRun with
    | .error e => .error e
    | .ok pylintResults =>
      let issues := parsePylintOutput pylintResults
      match flake8Run with
      | .ok stdout => .ok (issues ++ parseFlake8Output stdout)
      | .timeout => .ok (issues ++ [flake8TimeoutFinding])
      | .crash e => .error e
  else if language = "javascript" then
    let issues := [mkFinding "language_support" "info"
      "JavaScript linting support is limited. Consider using ESLint for full analysis."]
    if Py.contains code "var " ∧ ¬ Py.contains code "const " ∧ ¬ Py.contains code "let " then
      .ok (issues ++ [mkFinding "style" "warning"
        "Consider using const/let instead of var for better scoping"])
    else .ok issues
  else if language = "java" ∨ language = "cpp" ∨ language = "c" then
    let issues := [mkFinding "language_support" "info"
      (Py.upper language ++ " linting support is limited. Full analysis requires language-specific tools.")]
    if language = "java" ∧ ¬ Py.contains code "class " then
      .ok (issues ++ [mkFinding "structure" "warning"
        "Java code should contain at least one class definition"])
    else if (language = "c" ∨ language = "cpp") ∧
        ¬ Py.contains code "int main" ∧ ¬ Py.contains code "void main" then
      .ok (issues ++ [mkFinding "structure" "warning"
        "C/C++ code should contain a main function"])
    else .ok issues
  else
    .ok [mkFinding "unsupported" "warning"
      ("Language \x22" ++ language ++ "\x22 is not fully supported. Only basic analysis available.")]

/-- app.py fix_code_with_ai: the textual listing of the issues that is
embedded in the prompt, one line per issue. -/
def issuesText (issues : List Finding) : String :=
  Py.join "\n" (issues.map (fun issue => "- " ++ issue.type ++ ": " ++ issue.message))

/-- app.py fix_code_with_ai, markdown clean-up on the model reply: strip
the reply, and when it starts with a fence, take the part between the
first pair of fences and drop a leading language tag of six characters. -/
def stripMarkdownFence (content : String) : String :=
  let fixedCode := Py.strip content
  if Py.startsWith fixedCode "```" then
    let part := ((Py.split "```" fixedCode).drop 1).headD ""
    if Py.startsWith part "python" then Py.strip (Py.dropChars 6 part) else part
  else fixedCode

/-- app.py fix_code_with_ai. The client global is the Bool oracle (the
credential was configured at startup), the chat-completion call is an
Except oracle whose error side is any exception the try block catches.
The returned pair is (code, error) exactly as in the source. -/
def fix_code_with_ai (client : Bool) (aiCall : Except String String)
    (code : String) (issues : List Finding) (language : String) : String × Option String :=
  if ¬ client then (code, some "OpenAI API key not configured")
  else
    let _prompt := issuesText issues ++ language
    match aiCall with
    | .error e => (code, some ("AI fix failed: " ++ e))
    | .ok content => (stripMarkdownFence content, none)

/-- app.py format_code. isort.code and autopep8.fix_code are oracles that
either return the rewritten text or raise (none). The try block wraps both
calls: when isort raises, autopep8 is never reached and the input is
returned; when autopep8 raises, the isort output reached so far is
returned. Other languages fall through unchanged. -/
def format_code (isortCode autopep8Fix : String → Option String)
    (code : String) (language : String) : String :=
  if language = "python" then
    match isortCode code with
    | none => code
    | some c1 =>
      match autopep8Fix c1 with
      | none => c1
      | some c2 => c2
  else code

/-- Minimal JSON value model for the Flask jsonify bodies. -/
inductive JVal where
  | str (s : String)
  | num (n : Nat)
  | jbool (b : Bool)
  | null
  | arr (xs : List JVal)
  | obj (fields : List (String × JVal))
deriving Repr

/-- The top-level keys of a JSON object, in order. -/
def jsonKeys : JVal → List String
  | .obj fields => fields.map Prod.fst
  | _ => []

/-- Serialization of one issue dict into the response body. -/
def findingToJson (f : Finding) : JVal :=
  .obj [("type", .str f.type), ("severity", .str f.severity), ("message", .str f.message)]

/-- app.py create_github_pr result dict. All exceptions inside the
function are caught, so it always returns a dict: the git/filesystem steps
are one Except oracle. -/
structure PrOutcome where
  success : Bool
  message : String
  pr_url : Option String
deriving DecidableEq, Repr

/-- app.py create_github_pr: on success a simulated PR record, on any
exception a failure record without a url. -/
def create_github_pr (gitOps : Except String Unit) (issues : List Finding) : PrOutcome :=
  match gitOps with
  | .ok _ =>
    { success := true
      message := "PR created successfully with " ++ toString issues.length ++ " fixes"
      pr_url := some "https://github.com/example/repo/pull/123" }
  | .error e => { success := false, message := "Failed to create PR: " ++ e, pr_url := none }

/-- Serialization of a PrOutcome: the success dict has a pr_url key, the
failure dict does not. -/
def prOutcomeToJson (p : PrOutcome) : JVal :=
  .obj ([("success", .jbool p.success), ("message", .str p.message)] ++
    (match p.pr_url with
     | some u => [("pr_url", .str u)]
     | none => []))

/-- A JSON request body for /analyze or /fix: data.get returns the default
when the key is absent, so each field is an Option. -/
structure ApiRequest where
  code : Option String
  language : Option String
  create_pr : Option Bool
deriving Repr

/-- app.py analyze route: 400 on blank code, otherwise the issues list and
its count; an uncaught linter exception propagates as Except.error. -/
def analyzeRoute (pylintRun : Except String String) (flake8Run : Flake8Run)
    (req : ApiRequest) : Except String (Nat × JVal) :=
  let code := req.code.getD ""
  let language := req.language.getD "python"
  if Py.isBlank (Py.strip code) then
    .ok (400, .obj [("error", .str "No code provided")])
  else
    (analyze_code_with_linters pylintRun flake8Run code language).map (fun issues =>
      (200, .obj [("issues", .arr (issues.map findingToJson)),
                  ("issues_count", .num issues.length)]))

/-- One adapter invocation of the fix route, recorded in order: the
initial lint, the AI fixer call, the formatter call, a re-lint (never
emitted by this code, present so its absence can be stated), and the PR
creation. -/
inductive Step where
  | lint
  | aifix
  | format
  | relint
  | createpr
deriving DecidableEq, Repr

/-- Status code, response body and adapter-invocation trace of one /fix
request. -/
structure FixOutcome where
  status : Nat
  body : JVal
  trace : List Step
deriving Repr

/-- app.py fix route, translated branch for branch: blank code gives 400;
zero findings give the early clean response; a non-empty error from
fix_code_with_ai gives 500; otherwise the AI output is formatted once, the
optional PR is created, and the five-field body is returned. An uncaught
linter exception propagates as Except.error. -/
def fixRoute (client : Bool) (aiCall : Except String String)
    (pylintRun : Except String String) (flake8Run : Flake8Run)
    (isortCode autopep8Fix : String → Option String)
    (gitOps : Except String Unit)
    (req : ApiRequest) : Except String FixOutcome :=
  let code := req.code.getD ""
  let language := req.language.getD "python"
  let createPr := req.create_pr.getD false
  if Py.isBlank (Py.strip code) then
    .ok { status := 400, body := .obj [("error", .str "No code provided")], trace := [] }
  else
    match analyze_code_with_linters pylintRun flake8Run code language with
    | .error e => .error e
    | .ok issues =>
      if issues.isEmpty then
        .ok { status := 200
              body := .obj [("fixed_code", .str code),
                ("message", .str "No issues found - code is already clean!"),
                ("pr_result", .null)]
              trace := [.lint] }
      else
        match fix_code_with_ai client aiCall code issues language with
        | (_, some err) =>
          .ok { status := 500, body := .obj [("error", .str err)], trace := [.lint, .aifix] }
        | (aiFixed, none) =>
          let fixedCode := format_code isortCode autopep8Fix aiFixed language
          let prResult := if createPr then prOutcomeToJson (create_github_pr gitOps issues) else JVal.null
          .ok { status := 200
                body := .obj [("original_code", .str code),
                  ("fixed_code", .str fixedCode),
                  ("issues", .arr (issues.map findingToJson)),
                  ("issues_count", .num issues.length),
                  ("pr_result", prResult)]
                trace := [.lint, .aifix, .format] ++ (if createPr then [.createpr] else []) }

end AICodeReview

namespace ReviewPr

/-- One pylint JSON issue as consumed by review_pr.py run_linters: the
fields it reads with .get, with the Python defaults already applied. -/
structure PylintIssue where
  line : Nat
  column : Nat
  message : String
  symbol : String
  itype : String
deriving DecidableEq, Repr

/-- One flake8 JSON issue as consumed by review_pr.py run_linters. -/
structure Flake8Issue where
  line_number : Nat
  column_number : Nat
  description : String
  code : String
deriving DecidableEq, Repr

/-- One normalized finding dict built by review_pr.py run_linters. -/
structure RPFinding where
  type : String
  line : Nat
  column : Nat
  message : String
  symbol : Option String
  code : Option String
  severity : String
deriving DecidableEq, Repr

/-- Outcome of one tool block in review_pr.py run_linters: any exception
in the block (subprocess failure, JSON parse failure) is caught by the
per-tool try, a zero return code skips parsing, a non-zero return code
yields the parsed issue list. -/
inductive ToolRun (α : Type) where
  | crash (msg : String)
  | clean
  | issues (xs : List α)
deriving Repr

/-- review_pr.py run_linters, pylint issue normalization. -/
def pylintFinding (i : PylintIssue) : RPFinding :=
  { type := "pylint", line := i.line, column := i.column, message := i.message,
    symbol := some i.symbol, code := none, severity := i.itype }

/-- review_pr.py run_linters, flake8 issue normalization: severity error
for codes starting with E, warning otherwise. -/
def flake8Finding (i : Flake8Issue) : RPFinding :=
  { type := "flake8", line := i.line_number, column := i.column_number,
    message := i.description, symbol := none, code := some i.code,
    severity := if Py.startsWith i.code "E" then "error" else "warning" }

/-- review_pr.py run_linters: each tool block appends its findings to the
shared list; a caught per-tool exception leaves the list as it was and
control reaches the next block, so the function always returns a list. -/
def run_linters (pylintRun : ToolRun PylintIssue) (flake8Run : ToolRun Flake8Issue) :
    List RPFinding :=
  (match pylintRun with
   | .crash _ => []
   | .clean => []
   | .issues xs => xs.map pylintFinding) ++
  (match flake8Run with
   | .crash _ => []
   | .clean => []
   | .issues xs => xs.map flake8Finding)

end ReviewPr

open AICodeReview ReviewPr

/-- Claim C4 is corrected by this counterexample: when isort succeeds and
rewrites the text and autopep8 then fails, format_code returns the isort
output, not the original input, so a tool failure does not always return
the original text unchanged. -/
theorem C4_counterexample :
    format_code (fun s => if s = "a" then some "b" else none) (fun _ => none) "a" "python" = "b" ∧
    ("b" : String) ≠ "a" :=
  ⟨rfl, by decide⟩

/-- Claim C4 as amended: the Formatter Adapter never propagates a tool
failure, but on failure it returns the text as transformed so far: the
original input when isort fails (autopep8 is then never reached), the
isort output when autopep8 fails; for any language other than python it
is a no-op returning the input unchanged. -/
theorem C4_formatter_failure_behavior (isortCode autopep8Fix : String → Option String)
    (code lang : String) :
    (lang ≠ "python" → format_code isortCode autopep8Fix code lang = code) ∧
    (isortCode code = none → format_code isortCode autopep8Fix code lang = code) ∧
    (∀ c1, lang = "python" → isortCode code = some c1 → autopep8Fix c1 = none →
      format_code isortCode autopep8Fix code lang = c1) ∧
    (∀ c1 c2, lang = "python" → isortCode code = some c1 → autopep8Fix c1 = some c2 →
      format_code isortCode autopep8Fix code lang = c2) := by
  refine ⟨fun h => by simp [format_code, h], fun h => ?_, ?_, ?_⟩
  · by_cases hp : lang = "python" <;> simp [format_code, hp, h]
  · intro c1 hl h1 h2; simp [format_code, hl, h1, h2]
  · intro c1 c2 hl h1 h2; simp [format_code, hl, h1, h2]

/-- Closed instance of the amended C4 theorem: the non-python no-op case
and the autopep8-failure case returning the isort output. -/
theorem C4_witness :
    format_code (fun s => if s = "a" then some "b" else none) (fun _ => none) "ja" "javascript" = "ja" ∧
    format_code (fun s => if s = "a" then some "b" else none) (fun _ => none) "a" "python" = "b" :=
  ⟨(C4_formatter_failure_behavior (fun s => if s = "a" then some "b" else none)
      (fun _ => none) "ja" "javascript").1 (by decide),
   (C4_formatter_failure_behavior (fun s => if s = "a" then some "b" else none)
      (fun _ => none) "a" "python").2.2.1 "b" rfl rfl rfl⟩

/-- Claim C5 is corrected by this counterexample: in the app.py Linter
Adapter a pylint crash propagates out of analyze_code_with_linters, and a
non-timeout flake8 failure propagates and discards the pylint findings
already collected (here parsePylintOutput of the pylint text output is
non-empty and is lost). -/
theorem C5_counterexample :
    analyze_code_with_linters (Except.error "pylint crashed") (Flake8Run.ok "x:y:z:w")
      "def f():\n    pass" "python" = Except.error "pylint crashed" ∧
    analyze_code_with_linters (Except.ok "a:b:c") (Flake8Run.crash "flake8 crashed")
      "def f():\n    pass" "python" = Except.error "flake8 crashed" ∧
    parsePylintOutput "a:b:c" ≠ [] :=
  ⟨rfl, rfl, by decide⟩

/-- Claim C5 as amended: in the batch script run_linters every per-tool
failure is caught and the other tool keeps its findings (a crashed tool
contributes exactly what a clean run contributes, namely nothing), while
in the app.py adapter only a flake8 timeout is caught per tool, recorded
as an error finding after the preserved pylint findings. -/
theorem C5_per_tool_isolation (m : String) (p : ToolRun PylintIssue) (f : ToolRun Flake8Issue)
    (pyOut codeStr : String)
    (hdet : detect_language_from_code codeStr = "python") :
    run_linters (ToolRun.crash m) f = run_linters ToolRun.clean f ∧
    run_linters p (ToolRun.crash m) = run_linters p ToolRun.clean ∧
    analyze_code_with_linters (Except.ok pyOut) Flake8Run.timeout codeStr "python" =
      Except.ok (parsePylintOutput pyOut ++ [flake8TimeoutFinding]) := by
  refine ⟨rfl, rfl, ?_⟩
  simp [analyze_code_with_linters, hdet]

/-- Closed instance of the amended C5 theorem at a concrete python
snippet, pylint issue list and flake8 timeout. -/
theorem C5_witness :
    run_linters (ToolRun.crash "boom") (ToolRun.issues [(⟨1, 2, "m", "E1"⟩ : Flake8Issue)]) =
      run_linters ToolRun.clean (ToolRun.issues [(⟨1, 2, "m", "E1"⟩ : Flake8Issue)]) ∧
    analyze_code_with_linters (Except.ok "a:b:c") Flake8Run.timeout "def f():\n    pass" "python" =
      Except.ok (parsePylintOutput "a:b:c" ++ [flake8TimeoutFinding]) := by
  have h := C5_per_tool_isolation "boom" (ToolRun.issues [(⟨1, 2, "m", "s", "error"⟩ : PylintIssue)])
    (ToolRun.issues [(⟨1, 2, "m", "E1"⟩ : Flake8Issue)]) "a:b:c" "def f():\n    pass" (by decide)
  exact ⟨h.1, h.2.2⟩

/-- Claim C6: when the analysis of a non-blank snippet returns zero
findings, the fix route answers 200 with the input returned unchanged as
fixed_code, and the trace shows the AI Fixer was never invoked. -/
theorem C6_clean_short_circuit (client : Bool) (ai pylintO : Except String String)
    (f8 : Flake8Run) (isortCode autopep8Fix : String → Option String)
    (git : Except String Unit) (req : ApiRequest)
    (hne : Py.isBlank (Py.strip (req.code.getD "")) = false)
    (hclean : analyze_code_with_linters pylintO f8 (req.code.getD "") (req.language.getD "python") =
      Except.ok []) :
    fixRoute client ai pylintO f8 isortCode autopep8Fix git req =
      Except.ok { status := 200
                  body := JVal.obj [("fixed_code", JVal.str (req.code.getD "")),
                    ("message", JVal.str "No issues found - code is already clean!"),
                    ("pr_result", JVal.null)]
                  trace := [Step.lint] } ∧
    Step.aifix ∉ [Step.lint] := by
  refine ⟨?_, by decide⟩
  simp [fixRoute, hne, hclean]

/-- Closed instance of the C6 theorem: a clean run of both linters on a
non-blank snippet gives the unchanged-code response. -/
theorem C6_witness :
    fixRoute true (Except.ok "") (Except.ok "") (Flake8Run.ok "")
        (fun s => some s) (fun s => some s) (Except.ok ())
        ⟨some "def f():\n    pass", some "python", some false⟩ =
      Except.ok { status := 200
                  body := JVal.obj [("fixed_code", JVal.str "def f():\n    pass"),
                    ("message", JVal.str "No issues found - code is already clean!"),
                    ("pr_result", JVal.null)]
                  trace := [Step.lint] } :=
  (C6_clean_short_circuit true (Except.ok "") (Except.ok "") (Flake8Run.ok "")
    (fun s => some s) (fun s => some s) (Except.ok ())
    ⟨some "def f():\n    pass", some "python", some false⟩ (by decide) rfl).1

/-- Claim C7: when the detected language is neither unknown nor the
declared one, the analysis returns exactly the single language_mismatch
error finding; the result does not depend on the linter oracles, so no
linter tool is invoked. -/
theorem C7_language_mismatch (pylintO : Except String String) (f8 : Flake8Run)
    (codeStr lang : String)
    (h1 : detect_language_from_code codeStr ≠ "unknown")
    (h2 : detect_language_from_code codeStr ≠ lang) :
    analyze_code_with_linters pylintO f8 codeStr lang =
      Except.ok [mkFinding "language_mismatch" "error"
        ("Code appears to be " ++ Py.upper (detect_language_from_code codeStr) ++
          " but language is set to " ++ Py.upper lang ++
          ". Please select the correct language.")] := by
  simp [analyze_code_with_linters, h1, h2]

/-- Closed instance of the C7 theorem: a C snippet declared as python
short-circuits to the single mismatch finding even though the pylint
oracle would crash if it were invoked. -/
theorem C7_witness :
    analyze_code_with_linters (Except.error "never invoked") Flake8Run.timeout
      "#include <stdio.h>" "python" =
      Except.ok [mkFinding "language_mismatch" "error"
        ("Code appears to be C but language is set to PYTHON. Please select the correct language.")] :=
  C7_language_mismatch (Except.error "never invoked") Flake8Run.timeout
    "#include <stdio.h>" "python" (by decide) (by decide)

/-- Claim C9: the AI Fixer is a total function of its oracles and always
returns a pair; with no credential it returns the original code with the
fixed unavailable marker, and on an API failure it returns the original
code with a non-null error description. -/
theorem C9_ai_fixer_never_raises (client : Bool) (ai : Except String String)
    (code : String) (issues : List Finding) (lang : String) :
    (client = false →
      fix_code_with_ai client ai code issues lang = (code, some "OpenAI API key not configured")) ∧
    (client = true → ∀ e, ai = Except.error e →
      fix_code_with_ai client ai code issues lang = (code, some ("AI fix failed: " ++ e))) ∧
    (∀ e, ai = Except.error e →
      (fix_code_with_ai client ai code issues lang).1 = code ∧
      (fix_code_with_ai client ai code issues lang).2 ≠ none) := by
  refine ⟨fun h => by subst h; rfl, fun h e he => by subst h; subst he; rfl, fun e he => ?_⟩
  subst he
  cases client with
  | false => exact ⟨rfl, by simp [fix_code_with_ai]⟩
  | true => exact ⟨rfl, by simp [fix_code_with_ai]⟩

/-- Closed instance of the C9 theorem in the credential-less case. -/
theorem C9_witness :
    fix_code_with_ai false (Except.ok "whatever") "x = 1" [] "python" =
      ("x = 1", some "OpenAI API key not configured") :=
  (C9_ai_fixer_never_raises false (Except.ok "whatever") "x = 1" [] "python").1 rfl

/-- Claim C10: a request body without a language key is processed exactly
as one declaring python, for both routes and all oracle outcomes. -/
theorem C10_default_language_python (pylintO : Except String String) (f8 : Flake8Run)
    (client : Bool) (ai : Except String String)
    (isortCode autopep8Fix : String → Option String) (git : Except String Unit)
    (codeO : Option String) (cp : Option Bool) :
    analyzeRoute pylintO f8 { code := codeO, language := none, create_pr := cp } =
      analyzeRoute pylintO f8 { code := codeO, language := some "python", create_pr := cp } ∧
    fixRoute client ai pylintO f8 isortCode autopep8Fix git
        { code := codeO, language := none, create_pr := cp } =
      fixRoute client ai pylintO f8 isortCode autopep8Fix git
        { code := codeO, language := some "python", create_pr := cp } :=
  ⟨rfl, rfl⟩

/-- Claim C1 is corrected by this counterexample: on a concrete request
whose lint yields one finding and with a credential configured, the fix
route performs lint, then the AI call, then one formatting pass; there is
no formatting pass before the AI step and no re-lint anywhere, so the
order mandated by the claim is not followed. -/
theorem C1_counterexample :
    analyze_code_with_linters (Except.ok "a:b:c") (Flake8Run.ok "")
      "def f():\n    pass" "python" = Except.ok [mkFinding "pylint" "warning" "c"] ∧
    (fixRoute true (Except.ok "x = 1\n") (Except.ok "a:b:c") (Flake8Run.ok "")
        (fun s => some s) (fun s => some s) (Except.ok ())
        ⟨some "def f():\n    pass", some "python", some false⟩).map FixOutcome.trace =
      Except.ok [Step.lint, Step.aifix, Step.format] ∧
    [Step.lint, Step.aifix, Step.format] ≠
      [Step.lint, Step.format, Step.relint, Step.aifix, Step.format] ∧
    Step.relint ∉ [Step.lint, Step.aifix, Step.format] :=
  ⟨rfl, rfl, by decide, by decide⟩

/-- Claim C1 as amended: for every fix request whose lint produces at
least one finding and with a credential configured and the model call
succeeding, the route invokes the AI fixer directly on the original text,
then runs the Formatter Adapter exactly once on the AI-fixed text, with
no formatting pass before the AI step and no re-lint; the PR step follows
only when requested. -/
theorem C1_pipeline_order (content pyOut : String) (f8 : Flake8Run)
    (isortCode autopep8Fix : String → Option String) (git : Except String Unit)
    (req : ApiRequest) (issues : List Finding)
    (hne : Py.isBlank (Py.strip (req.code.getD "")) = false)
    (hana : analyze_code_with_linters (Except.ok pyOut) f8 (req.code.getD "")
      (req.language.getD "python") = Except.ok issues)
    (hissues : issues ≠ []) :
    fixRoute true (Except.ok content) (Except.ok pyOut) f8 isortCode autopep8Fix git req =
      Except.ok { status := 200
                  body := JVal.obj [
                    ("original_code", JVal.str (req.code.getD "")),
                    ("fixed_code", JVal.str (format_code isortCode autopep8Fix
                      (stripMarkdownFence content) (req.language.getD "python"))),
                    ("issues", JVal.arr (issues.map findingToJson)),
                    ("issues_count", JVal.num issues.length),
                    ("pr_result", if req.create_pr.getD false then
                      prOutcomeToJson (create_github_pr git issues) else JVal.null)]
                  trace := [Step.lint, Step.aifix, Step.format] ++
                    (if req.create_pr.getD false then [Step.createpr] else []) } := by
  have hie : issues.isEmpty = false := by
    cases issues with
    | nil => exact absurd rfl hissues
    | cons a l => rfl
  simp [fixRoute, hne, hana, hie, fix_code_with_ai]

/-- Closed instance of the amended C1 theorem at the counterexample
input. -/
theorem C1_witness :
    fixRoute true (Except.ok "x = 1\n") (Except.ok "a:b:c") (Flake8Run.ok "")
        (fun s => some s) (fun s => some s) (Except.ok ())
        ⟨some "def f():\n    pass", some "python", some false⟩ =
      Except.ok { status := 200
                  body := JVal.obj [
                    ("original_code", JVal.str "def f():\n    pass"),
                    ("fixed_code", JVal.str "x = 1"),
                    ("issues", JVal.arr [findingToJson (mkFinding "pylint" "warning" "c")]),
                    ("issues_count", JVal.num 1),
                    ("pr_result", JVal.null)]
                  trace := [Step.lint, Step.aifix, Step.format] } :=
  C1_pipeline_order "x = 1\n" "a:b:c" (Flake8Run.ok "") (fun s => some s) (fun s => some s)
    (Except.ok ()) ⟨some "def f():\n    pass", some "python", some false⟩
    [mkFinding "pylint" "warning" "c"] (by decide) rfl (by decide)

/-- Claim C2 is corrected by this counterexample: on a concrete request
with one finding and no credential configured, the fix route answers 500
with only an error field, not a successful formatted-only result. -/
theorem C2_counterexample :
    analyze_code_with_linters (Except.ok "a:b:c") (Flake8Run.ok "")
      "def f():\n    pass" "python" = Except.ok [mkFinding "pylint" "warning" "c"] ∧
    fixRoute false (Except.ok "") (Except.ok "a:b:c") (Flake8Run.ok "")
        (fun s => some s) (fun s => some s) (Except.ok ())
        ⟨some "def f():\n    pass", some "python", some false⟩ =
      Except.ok { status := 500
                  body := JVal.obj [("error", JVal.str "OpenAI API key not configured")]
                  trace := [Step.lint, Step.aifix] } ∧
    (500 : Nat) ≠ 200 :=
  ⟨rfl, rfl, by decide⟩

/-- Claim C2 as amended: when no model credential is configured and the
lint of a non-blank snippet produces at least one finding, the fix route
fails the request with 500 and the body contains only the missing-key
error; the formatter is never run and no analysis result is returned. -/
theorem C2_missing_credential_fails (ai pylintO : Except String String) (f8 : Flake8Run)
    (isortCode autopep8Fix : String → Option String) (git : Except String Unit)
    (req : ApiRequest) (issues : List Finding)
    (hne : Py.isBlank (Py.strip (req.code.getD "")) = false)
    (hana : analyze_code_with_linters pylintO f8 (req.code.getD "")
      (req.language.getD "python") = Except.ok issues)
    (hissues : issues ≠ []) :
    fixRoute false ai pylintO f8 isortCode autopep8Fix git req =
      Except.ok { status := 500
                  body := JVal.obj [("error", JVal.str "OpenAI API key not configured")]
                  trace := [Step.lint, Step.aifix] } ∧
    Step.format ∉ [Step.lint, Step.aifix] := by
  have hie : issues.isEmpty = false := by
    cases issues with
    | nil => exact absurd rfl hissues
    | cons a l => rfl
  refine ⟨?_, by decide⟩
  simp [fixRoute, hne, hana, hie, fix_code_with_ai]

/-- Closed instance of the amended C2 theorem: a different snippet and
pylint output, with a PR requested, still fails with the 500 error. -/
theorem C2_witness :
    fixRoute false (Except.error "transport down") (Except.ok "x:y:z") (Flake8Run.ok "")
        (fun s => some s) (fun s => some s) (Except.ok ())
        ⟨some "def g():\n    return 2", some "python", some true⟩ =
      Except.ok { status := 500
                  body := JVal.obj [("error", JVal.str "OpenAI API key not configured")]
                  trace := [Step.lint, Step.aifix] } :=
  (C2_missing_credential_fails (Except.error "transport down") (Except.ok "x:y:z")
    (Flake8Run.ok "") (fun s => some s) (fun s => some s) (Except.ok ())
    ⟨some "def g():\n    return 2", some "python", some true⟩
    [mkFinding "pylint" "warning" "z"] (by decide) rfl (by decide)).1

/-- Claim C3 is corrected by this counterexample: for a concrete
non-empty snippet with zero findings the fix route succeeds with 200 but
its body has only the keys fixed_code, message and pr_result, missing
original_code, issues and issues_count. -/
theorem C3_counterexample :
    (fixRoute true (Except.ok "") (Except.ok "") (Flake8Run.ok "")
        (fun s => some s) (fun s => some s) (Except.ok ())
        ⟨some "def f():\n    pass", some "python", some false⟩).map
      (fun o => (o.status, jsonKeys o.body)) =
      Except.ok (200, ["fixed_code", "message", "pr_result"]) ∧
    "original_code" ∉ (["fixed_code", "message", "pr_result"] : List String) ∧
    "issues" ∉ (["fixed_code", "message", "pr_result"] : List String) ∧
    "issues_count" ∉ (["fixed_code", "message", "pr_result"] : List String) :=
  ⟨rfl, by decide, by decide, by decide⟩

/-- Claim C3 as amended: a successful fix response carries all five
fields exactly when the snippet had at least one finding (and the AI call
succeeded); the zero-finding success carries only fixed_code, message and
pr_result. This theorem proves the five-field shape of the non-clean
success. -/
theorem C3_success_has_five_fields (content pyOut : String) (f8 : Flake8Run)
    (isortCode autopep8Fix : String → Option String) (git : Except String Unit)
    (req : ApiRequest) (issues : List Finding)
    (hne : Py.isBlank (Py.strip (req.code.getD "")) = false)
    (hana : analyze_code_with_linters (Except.ok pyOut) f8 (req.code.getD "")
      (req.language.getD "python") = Except.ok issues)
    (hissues : issues ≠ []) :
    (fixRoute true (Except.ok content) (Except.ok pyOut) f8 isortCode autopep8Fix git req).map
      (fun o => (o.status, jsonKeys o.body)) =
      Except.ok (200, ["original_code", "fixed_code", "issues", "issues_count", "pr_result"]) := by
  have hie : issues.isEmpty = false := by
    cases issues with
    | nil => exact absurd rfl hissues
    | cons a l => rfl
  simp [fixRoute, hne, hana, hie, fix_code_with_ai, Except.map, jsonKeys]

/-- Closed instance of the amended C3 theorem. -/
theorem C3_witness :
    (fixRoute true (Except.ok "x = 1\n") (Except.ok "a:b:c") (Flake8Run.ok "")
        (fun s => some s) (fun s => some s) (Except.ok ())
        ⟨some "def f():\n    pass", some "python", some true⟩).map
      (fun o => (o.status, jsonKeys o.body)) =
      Except.ok (200, ["original_code", "fixed_code", "issues", "issues_count", "pr_result"]) :=
  C3_success_has_five_fields "x = 1\n" "a:b:c" (Flake8Run.ok "") (fun s => some s)
    (fun s => some s) (Except.ok ()) ⟨some "def f():\n    pass", some "python", some true⟩
    [mkFinding "pylint" "warning" "c"] (by decide) rfl (by decide)

/-- Claim C8: the Formatter Adapter inherits idempotence from its two
underlying tools: whenever the modelled isort is idempotent on its
successful outputs and every successful autopep8 output is a fixed point
of both tools, formatting twice is byte-identical to formatting once, for
every source text and every language, the failure branches included. -/
theorem C8_format_idempotent (isortCode autopep8Fix : String → Option String)
    (code lang : String)
    (hI : ∀ x y, isortCode x = some y → isortCode y = some y)
    (hA : ∀ x y, autopep8Fix x = some y → autopep8Fix y = some y ∧ isortCode y = some y) :
    format_code isortCode autopep8Fix (format_code isortCode autopep8Fix code lang) lang =
      format_code isortCode autopep8Fix code lang := by
  by_cases hl : lang = "python"
  · subst hl
    cases hi : isortCode code with
    | none =>
      have h0 : format_code isortCode autopep8Fix code "python" = code := by
        simp [format_code, hi]
      rw [h0]
      exact h0
    | some c1 =>
      cases ha : autopep8Fix c1 with
      | none =>
        have h0 : format_code isortCode autopep8Fix code "python" = c1 := by
          simp [format_code, hi, ha]
        rw [h0]
        simp [format_code, hI code c1 hi, ha]
      | some c2 =>
        obtain ⟨h2, h3⟩ := hA c1 c2 ha
        have h0 : format_code isortCode autopep8Fix code "python" = c2 := by
          simp [format_code, hi, ha]
        rw [h0]
        simp [format_code, h3, h2]
  · simp [format_code, hl]

/-- Closed instance of the C8 theorem with identity tool oracles. -/
theorem C8_witness :
    format_code (fun s => some s) (fun s => some s)
        (format_code (fun s => some s) (fun s => some s) "import b\nimport a\n" "python") "python" =
      format_code (fun s => some s) (fun s => some s) "import b\nimport a\n" "python" :=
  C8_format_idempotent (fun s => some s) (fun s => some s) "import b\nimport a\n" "python"
    (fun _ _ _ => rfl) (fun _ _ _ => ⟨rfl, rfl⟩)
